import Mathlib

/-!
Verification of the per-card playback state machine of the EnginiLotties
repository (src/Hexagons/app.js).  The source file holds three revisions of
the same `LottieCard` controller:

* the "Hexagons" revision (lines 1-438): callback bound once at construction
  (`boundOnEnterFrame`), playback kinds continuous / loop / freeze / playOnce;
* the intermediate revision (lines 438-952): every subscribe/unsubscribe call
  re-derives the frame callback via `this.onEnterFrame.bind(this)`;
* the fixed revision (lines 952-1412): kinds playOnce / playAndHold / loop,
  canonical `boundOnEnterFrame` reference created once in the constructor.

The external playback engine (lottie-web) is modelled through its control
surface only: current frame, paused flag, and the list of registered
`enterFrame` listener references.  Listener references are modelled as
natural numbers; a fresh `Function.prototype.bind` result is a fresh number
drawn from an allocation counter (`nextRef`), while the canonical bound
callback of a controller is the fixed number stored in `boundOnEnterFrame`.
`addEventListener` is modelled with the dedup-on-identical-reference
semantics the fixed revision's own comment documents ("Standard JS
addEventListener prevents duplicates automatically if ref is same");
`removeEventListener` removes the given reference.

DOM side effects are reduced to the data the controller computes for them:
the timeline visual state (`TimelineUI`) and the wrapper's `playing` /
`frozen-state` CSS classes, kept as booleans.  Frame numbers are `Int`
(JavaScript numbers after `Math.floor`); timeline ratio arithmetic is over
`Rat` (exact rational counterpart of the JS float expressions).
-/

/-- Playback kinds of the fixed revision (`animationType` strings
`"playOnce"`, `"playAndHold"`, `"loop"`). -/
inductive AnimType where
  | playOnce
  | playAndHold
  | loop
  deriving DecidableEq, Repr

/-- Commands the controller issues on the engine handle. -/
inductive Cmd where
  | goToAndPlay (f : Int)
  | goToAndStop (f : Int)
  | play
  | pause
  deriving DecidableEq, Repr

/-- The observable state of the external playback engine handle:
current frame, paused flag, and the registered `enterFrame` listener
references in registration order. -/
structure Engine where
  currentFrame : Int
  isPaused : Bool
  listeners : List Nat
  deriving DecidableEq, Repr

/-- `handle.addEventListener('enterFrame', r)`: registering a reference that
is already registered is a no-op (dedup on identical reference). -/
def addListener (r : Nat) (e : Engine) : Engine :=
  if r ∈ e.listeners then e else { e with listeners := e.listeners ++ [r] }

/-- `handle.removeEventListener('enterFrame', r)`: removes the given
reference from the listener list (a reference that was never registered is
left alone). -/
def removeListener (r : Nat) (e : Engine) : Engine :=
  { e with listeners := e.listeners.filter (fun x => x ≠ r) }

/-- Effect of each engine command on the engine handle:
`goToAndPlay`/`goToAndStop` seek and unpause/pause, `play`/`pause` toggle
the paused flag. -/
def Engine.applyCmd (cmd : Cmd) (e : Engine) : Engine :=
  match cmd with
  | Cmd.goToAndPlay f => { e with currentFrame := f, isPaused := false }
  | Cmd.goToAndStop f => { e with currentFrame := f, isPaused := true }
  | Cmd.play => { e with isPaused := false }
  | Cmd.pause => { e with isPaused := true }

/-- Visual state the timeline renderer maintains: frame counter text,
playhead marker (position percent and opacity toggle), the simple progress
bar, the three segmented progress bars, and the three active-segment
flags. -/
structure TimelineUI where
  frameCounter : Int
  markerLeft : Rat
  markerVisible : Bool
  progressFull : Rat
  progressIntro : Rat
  progressLoop : Rat
  progressOutro : Rat
  introActive : Bool
  loopActive : Bool
  outroActive : Bool
  deriving DecidableEq, Repr

/-- Initial timeline visual state (all bars empty, nothing active). -/
def TimelineUI.init : TimelineUI :=
  { frameCounter := 0, markerLeft := 0, markerVisible := false,
    progressFull := 0, progressIntro := 0, progressLoop := 0,
    progressOutro := 0, introActive := false, loopActive := false,
    outroActive := false }

/-- The card fields `updateTimelineUI` reads. -/
structure TimelineInput where
  totalFrames : Int
  isLooping : Bool
  loopStartFrame : Int
  loopEndFrame : Int
  deriving DecidableEq, Repr

/-- `Math.min(100, Math.max(0, x))` as used on every segmented progress
percentage. -/
def clampPercent (x : Rat) : Rat := min 100 (max 0 x)

/-- `LottieCard.updateTimelineUI(currentFrame, isPlaying)` (identical in the
intermediate and fixed revisions; the Hexagons revision differs only in
which DOM node serves as the playhead marker).  Sets the frame counter,
returns early when `totalFrames` is zero, positions the marker and toggles
its opacity from `isPlaying`, and for looping cards computes the three
clamped segment percentages, clears all active flags and re-activates the
segment whose interval contains `currentFrame` (only while playing). -/
def updateTimelineUI (inp : TimelineInput) (prev : TimelineUI)
    (currentFrame : Int) (isPlaying : Bool) : TimelineUI :=
  if inp.totalFrames = 0 then { prev with frameCounter := currentFrame }
  else
    let totalProgressPercent : Rat :=
      ((currentFrame : Rat) / (inp.totalFrames : Rat)) * 100
    if inp.isLooping then
      let introProgress : Rat :=
        ((currentFrame : Rat) / (inp.loopStartFrame : Rat)) * 100
      let loopProgress : Rat :=
        (((currentFrame : Rat) - (inp.loopStartFrame : Rat)) /
          ((inp.loopEndFrame : Rat) - (inp.loopStartFrame : Rat))) * 100
      let outroProgress : Rat :=
        (((currentFrame : Rat) - (inp.loopEndFrame : Rat)) /
          ((inp.totalFrames : Rat) - (inp.loopEndFrame : Rat))) * 100
      let base : TimelineUI :=
        { prev with
          frameCounter := currentFrame
          markerLeft := totalProgressPercent
          markerVisible := isPlaying
          progressIntro := clampPercent introProgress
          progressLoop := clampPercent loopProgress
          progressOutro := clampPercent outroProgress
          introActive := false
          loopActive := false
          outroActive := false }
      if isPlaying then
        if currentFrame < inp.loopStartFrame then { base with introActive := true }
        else if inp.loopStartFrame ≤ currentFrame ∧ currentFrame ≤ inp.loopEndFrame then
          { base with loopActive := true }
        else { base with outroActive := true }
      else base
    else
      { prev with
        frameCounter := currentFrame
        markerLeft := totalProgressPercent
        markerVisible := isPlaying
        progressFull := totalProgressPercent }

/-- Controller state shared by the intermediate and fixed revisions of
`LottieCard` (same fields; they differ only in which callback reference the
handlers pass to subscribe/unsubscribe).  `boundOnEnterFrame` is the
canonical reference the fixed revision's constructor creates once;
`nextRef` is the allocation counter for fresh `bind` results used by the
intermediate revision's handlers. -/
structure Card where
  animationType : AnimType
  isLooping : Bool
  loopStartFrame : Int
  loopEndFrame : Int
  totalFrames : Int
  isHovering : Bool
  isOutroLocked : Bool
  playingClass : Bool
  boundOnEnterFrame : Nat
  nextRef : Nat
  engine : Engine
  ui : TimelineUI
  deriving DecidableEq, Repr

/-- The fields of a card that `updateTimelineUI` reads. -/
def Card.timelineInput (c : Card) : TimelineInput :=
  { totalFrames := c.totalFrames, isLooping := c.isLooping,
    loopStartFrame := c.loopStartFrame, loopEndFrame := c.loopEndFrame }

/-- Number of registrations of the card's canonical frame callback on the
engine handle. -/
def countListener (c : Card) : Nat :=
  c.engine.listeners.count c.boundOnEnterFrame

namespace Fixed

/-- `LottieCard.resetTimeline` (fixed revision): zero the progress bars of
the card's timeline flavour, then repaint via `updateTimelineUI(0, false)`. -/
def resetTimeline (c : Card) : TimelineUI :=
  let u :=
    if c.isLooping then
      { c.ui with progressIntro := 0, progressLoop := 0, progressOutro := 0 }
    else { c.ui with progressFull := 0 }
  updateTimelineUI c.timelineInput u 0 false

/-- `LottieCard.onEnterFrame` (fixed revision): no-op when `totalFrames` is
zero; otherwise repaint the timeline for the engine's current frame, and
for looping cards run the loop logic — ignore everything while outro-locked,
jump back to `loopStartFrame` when hovering past `loopEndFrame`, and lock
into the outro when unhovered at or past `loopStartFrame`. -/
def onEnterFrame (c : Card) : Card × List Cmd :=
  if c.totalFrames = 0 then (c, [])
  else
    let currentFrame := c.engine.currentFrame
    let c1 := { c with ui := updateTimelineUI c.timelineInput c.ui currentFrame true }
    if c.isLooping then
      if c.isOutroLocked then (c1, [])
      else if c.isHovering then
        if c.loopEndFrame ≤ currentFrame then
          ({ c1 with engine := Engine.applyCmd (Cmd.goToAndPlay c.loopStartFrame) c1.engine },
           [Cmd.goToAndPlay c.loopStartFrame])
        else (c1, [])
      else
        if c.loopStartFrame ≤ currentFrame then
          ({ c1 with isOutroLocked := true }, [])
        else (c1, [])
    else (c1, [])

/-- Overwrite the engine's reported current frame (the engine rendered a new
frame; this happens before any listener runs). -/
def setFrame (f : Int) (c : Card) : Card :=
  { c with engine := { c.engine with currentFrame := f } }

/-- Run the `onEnterFrame` handler once per registered occurrence of the
card's callback reference, collecting the issued commands. -/
def fireListeners : Nat → Card → Card × List Cmd
  | 0, c => (c, [])
  | Nat.succ n, c =>
    let p := onEnterFrame c
    let q := fireListeners n p.1
    (q.1, p.2 ++ q.2)

/-- Delivery of one engine `enterFrame` event reporting frame `f`: the
engine's current frame becomes `f`, then the handler runs once per
registration of the card's callback reference. -/
def frameAdvanced (f : Int) (c : Card) : Card × List Cmd :=
  fireListeners (countListener c) (setFrame f c)

/-- `LottieCard.onComplete` (fixed revision): detach the canonical frame
callback; a `playAndHold` card pauses on its final frame; any other card
clears the outro lock, resets the timeline, and either replays from frame 0
(still hovering, re-attaching the canonical callback) or stops at frame 0. -/
def onComplete (c : Card) : Card × List Cmd :=
  let c0 := { c with engine := removeListener c.boundOnEnterFrame c.engine }
  if c.animationType = AnimType.playAndHold then
    let c1 := { c0 with engine := Engine.applyCmd Cmd.pause c0.engine }
    ({ c1 with ui := updateTimelineUI c1.timelineInput c1.ui c1.totalFrames false,
               playingClass := false },
     [Cmd.pause])
  else
    let c1 := { c0 with isOutroLocked := false }
    let c2 := { c1 with ui := resetTimeline c1 }
    if c.isHovering then
      let c3 := { c2 with engine := addListener c.boundOnEnterFrame c2.engine }
      let c4 := { c3 with engine := Engine.applyCmd (Cmd.goToAndPlay 0) c3.engine }
      ({ c4 with ui := updateTimelineUI c4.timelineInput c4.ui 0 true },
       [Cmd.goToAndPlay 0])
    else
      ({ c2 with engine := Engine.applyCmd (Cmd.goToAndStop 0) c2.engine,
                 playingClass := false },
       [Cmd.goToAndStop 0])

/-- `LottieCard.onHoverStart` (fixed revision): set hovering, attach the
canonical frame callback (dedup keeps a single registration), then if the
engine is paused clear the outro lock and restart from frame 0, else if a
loop card is outro-locked at a frame not past `loopEndFrame` clear the
lock; finally call `play()`. -/
def onHoverStart (c : Card) : Card × List Cmd :=
  let c0 := { c with isHovering := true, playingClass := true,
                     engine := addListener c.boundOnEnterFrame c.engine }
  let currentFrame := c.engine.currentFrame
  if c.engine.isPaused then
    let c1 := { c0 with isOutroLocked := false,
                        engine := Engine.applyCmd (Cmd.goToAndPlay 0) c0.engine }
    let c2 := { c1 with ui := updateTimelineUI c1.timelineInput c1.ui 0 true }
    ({ c2 with engine := Engine.applyCmd Cmd.play c2.engine },
     [Cmd.goToAndPlay 0, Cmd.play])
  else if c.isLooping ∧ c.isOutroLocked ∧ currentFrame ≤ c.loopEndFrame then
    ({ c0 with isOutroLocked := false,
               engine := Engine.applyCmd Cmd.play c0.engine },
     [Cmd.play])
  else
    ({ c0 with engine := Engine.applyCmd Cmd.play c0.engine }, [Cmd.play])

/-- `LottieCard.onHoverEnd` (fixed revision): clear hovering; a
`playAndHold` card is reset immediately (clear the lock, detach the
canonical callback, `goToAndStop(0)`, reset the timeline); every other kind
just gets `play()` so it can run to its outro/completion. -/
def onHoverEnd (c : Card) : Card × List Cmd :=
  let c0 := { c with isHovering := false }
  if c.animationType = AnimType.playAndHold then
    let c1 := { c0 with isOutroLocked := false,
                        engine := removeListener c.boundOnEnterFrame c0.engine }
    let c2 := { c1 with engine := Engine.applyCmd (Cmd.goToAndStop 0) c1.engine }
    ({ c2 with ui := resetTimeline c2, playingClass := false },
     [Cmd.goToAndStop 0])
  else
    ({ c0 with engine := Engine.applyCmd Cmd.play c0.engine,
               playingClass := false },
     [Cmd.play])

/-- One animation entry of the fixed revision's `ANIMATION_SECTIONS`
configuration, restricted to the fields `parseAnimationProps` reads
(`fileName` only feeds the asset path and is omitted).  `animationType`
absent means the `|| 'playOnce'` default applies; `loopFrames` is the
optional `[startFrame, endFrame]` pair. -/
structure AnimationData where
  animationType : Option AnimType
  loopFrames : Option (Int × Int)
  deriving DecidableEq, Repr

/-- The animation properties `parseAnimationProps` stores on the card. -/
structure AnimProps where
  animationType : AnimType
  isLooping : Bool
  loopStartFrame : Int
  loopEndFrame : Int
  deriving DecidableEq, Repr

/-- `LottieCard.parseAnimationProps` (fixed revision): default the kind to
`playOnce`, set `isLooping`, and copy `loopFrames[0]`/`loopFrames[1]` when
the card is looping and bounds were supplied, else default both bounds to
0.  The source performs no validation of the bounds. -/
def parseAnimationProps (d : AnimationData) : AnimProps :=
  let t := d.animationType.getD AnimType.playOnce
  let looping : Bool := t == AnimType.loop
  match looping, d.loopFrames with
  | true, some lf =>
    { animationType := t, isLooping := looping,
      loopStartFrame := lf.1, loopEndFrame := lf.2 }
  | _, _ =>
    { animationType := t, isLooping := looping,
      loopStartFrame := 0, loopEndFrame := 0 }

/-- `LottieCard` constructor state (fixed revision) right after
`loadAnimationForTheme`: properties parsed from the configuration, all
flags cleared, `totalFrames` still 0, engine loaded with
`autoplay: false` (paused at frame 0, no `enterFrame` listener), the
canonical bound callback reference allocated as 0 and the fresh-reference
counter starting past it. -/
def mkCard (d : AnimationData) : Card :=
  let p := parseAnimationProps d
  { animationType := p.animationType, isLooping := p.isLooping,
    loopStartFrame := p.loopStartFrame, loopEndFrame := p.loopEndFrame,
    totalFrames := 0, isHovering := false, isOutroLocked := false,
    playingClass := false, boundOnEnterFrame := 0, nextRef := 1,
    engine := { currentFrame := 0, isPaused := true, listeners := [] },
    ui := TimelineUI.init }

/-- `LottieCard.onDOMLoaded` (fixed revision): record the engine's total
frame count, `goToAndStop(0, true)`, then build and reset the timeline
(`buildTimeline` only paints the static segment layout and is not part of
the modelled state). -/
def onDOMLoaded (engineTotalFrames : Int) (c : Card) : Card × List Cmd :=
  let c0 := { c with totalFrames := engineTotalFrames }
  let c1 := { c0 with engine := Engine.applyCmd (Cmd.goToAndStop 0) c0.engine }
  ({ c1 with ui := resetTimeline c1 }, [Cmd.goToAndStop 0])

end Fixed

namespace Inter

/-!
The intermediate revision's handlers.  Its constructor stores no bound
callback; every `addEventListener`/`removeEventListener` call passes
`this.onEnterFrame.bind(this)`, a freshly created function object, modelled
by drawing a fresh reference from `nextRef`.  Only the handlers the C1
sources cite (`onHoverStart`, `onComplete`) are embedded; their control
flow is otherwise identical to the fixed revision's.
-/

/-- `LottieCard.onHoverStart` (intermediate revision): identical to the
fixed revision except that the attach passes a fresh
`this.onEnterFrame.bind(this)` reference. -/
def onHoverStart (c : Card) : Card × List Cmd :=
  let r := c.nextRef
  let c0 := { c with isHovering := true, playingClass := true, nextRef := c.nextRef + 1,
                     engine := addListener r c.engine }
  let currentFrame := c.engine.currentFrame
  if c.engine.isPaused then
    let c1 := { c0 with isOutroLocked := false,
                        engine := Engine.applyCmd (Cmd.goToAndPlay 0) c0.engine }
    let c2 := { c1 with ui := updateTimelineUI c1.timelineInput c1.ui 0 true }
    ({ c2 with engine := Engine.applyCmd Cmd.play c2.engine },
     [Cmd.goToAndPlay 0, Cmd.play])
  else if c.isLooping ∧ c.isOutroLocked ∧ currentFrame ≤ c.loopEndFrame then
    ({ c0 with isOutroLocked := false,
               engine := Engine.applyCmd Cmd.play c0.engine },
     [Cmd.play])
  else
    ({ c0 with engine := Engine.applyCmd Cmd.play c0.engine }, [Cmd.play])

/-- `LottieCard.onComplete` (intermediate revision): identical to the fixed
revision except that both the detach and the conditional re-attach pass
fresh `this.onEnterFrame.bind(this)` references. -/
def onComplete (c : Card) : Card × List Cmd :=
  let r := c.nextRef
  let c0 := { c with nextRef := c.nextRef + 1,
                     engine := removeListener r c.engine }
  if c.animationType = AnimType.playAndHold then
    let c1 := { c0 with engine := Engine.applyCmd Cmd.pause c0.engine }
    ({ c1 with ui := updateTimelineUI c1.timelineInput c1.ui c1.totalFrames false,
               playingClass := false },
     [Cmd.pause])
  else
    let c1 := { c0 with isOutroLocked := false }
    let c2 := { c1 with ui := Fixed.resetTimeline c1 }
    if c.isHovering then
      let r2 := c2.nextRef
      let c3 := { c2 with nextRef := c2.nextRef + 1,
                          engine := addListener r2 c2.engine }
      let c4 := { c3 with engine := Engine.applyCmd (Cmd.goToAndPlay 0) c3.engine }
      ({ c4 with ui := updateTimelineUI c4.timelineInput c4.ui 0 true },
       [Cmd.goToAndPlay 0])
    else
      ({ c2 with engine := Engine.applyCmd (Cmd.goToAndStop 0) c2.engine,
                 playingClass := false },
       [Cmd.goToAndStop 0])

end Inter

namespace Hexagons

/-- Playback kinds of the Hexagons revision (`continuous`, `loop`,
`freeze`, `playOnce`). -/
inductive HexAnimType where
  | continuous
  | loop
  | freeze
  | playOnce
  deriving DecidableEq, Repr

/-- Controller state of the Hexagons revision's `LottieCard`: like the
fixed revision's but with the `freeze` machinery (`freezeFrame`,
`isFrozen`, the `frozen-state` CSS class) and the canonical bound frame
callback created once in the constructor. -/
structure HexCard where
  animationType : HexAnimType
  loopStartFrame : Int
  loopEndFrame : Int
  freezeFrame : Int
  totalFrames : Int
  isHovering : Bool
  isFrozen : Bool
  isOutroLocked : Bool
  playingClass : Bool
  frozenClass : Bool
  boundOnEnterFrame : Nat
  engine : Engine
  ui : TimelineUI
  deriving DecidableEq, Repr

/-- The fields of a Hexagons card that `updateTimelineUI` reads (the
Hexagons revision tests `this.animationType === 'loop'` directly). -/
def HexCard.timelineInput (c : HexCard) : TimelineInput :=
  { totalFrames := c.totalFrames,
    isLooping := c.animationType == HexAnimType.loop,
    loopStartFrame := c.loopStartFrame, loopEndFrame := c.loopEndFrame }

/-- `LottieCard.onEnterFrame` (Hexagons revision): no-op when `totalFrames`
is zero; repaint the timeline; continuous cards do nothing further; loop
cards run the same loop logic as the fixed revision; freeze cards, while
hovering and not yet frozen, pause at the declared freeze frame and set
the frozen flag and CSS class. -/
def onEnterFrame (c : HexCard) : HexCard × List Cmd :=
  if c.totalFrames = 0 then (c, [])
  else
    let currentFrame := c.engine.currentFrame
    let c1 := { c with ui := updateTimelineUI c.timelineInput c.ui currentFrame true }
    if c.animationType = HexAnimType.continuous then (c1, [])
    else if c.animationType = HexAnimType.loop then
      if c.isOutroLocked then (c1, [])
      else if c.isHovering then
        if c.loopEndFrame ≤ currentFrame then
          ({ c1 with engine := Engine.applyCmd (Cmd.goToAndPlay c.loopStartFrame) c1.engine },
           [Cmd.goToAndPlay c.loopStartFrame])
        else (c1, [])
      else
        if c.loopStartFrame ≤ currentFrame then
          ({ c1 with isOutroLocked := true }, [])
        else (c1, [])
    else if c.animationType = HexAnimType.freeze then
      if c.isHovering ∧ c.isFrozen = false then
        if c.freezeFrame ≤ currentFrame then
          ({ c1 with isFrozen := true, frozenClass := true,
                     engine := Engine.applyCmd Cmd.pause c1.engine },
           [Cmd.pause])
        else (c1, [])
      else (c1, [])
    else (c1, [])

/-- `LottieCard.onHoverEnd` (Hexagons revision): continuous cards ignore
hover; otherwise clear hovering, and only a *frozen* freeze card gets
unfrozen and resumed (`play()`), a non-loop non-freeze card gets `play()`,
while a freeze card that has not reached its freeze point is left alone so
it keeps playing to natural completion. -/
def onHoverEnd (c : HexCard) : HexCard × List Cmd :=
  if c.animationType = HexAnimType.continuous then (c, [])
  else
    let c0 := { c with isHovering := false }
    if c.animationType = HexAnimType.freeze then
      if c.isFrozen then
        ({ c0 with isFrozen := false, frozenClass := false,
                   engine := Engine.applyCmd Cmd.play c0.engine,
                   playingClass := false },
         [Cmd.play])
      else ({ c0 with playingClass := false }, [])
    else if c.animationType ≠ HexAnimType.loop then
      ({ c0 with engine := Engine.applyCmd Cmd.play c0.engine,
                 playingClass := false },
       [Cmd.play])
    else ({ c0 with playingClass := false }, [])

end Hexagons

/-! ## Concrete cards used by witnesses and counterexamples -/

/-- A freshly loaded-but-idle loop card (bounds 24-71, 100 frames, paused at
frame 0, no frame listener registered).  Doubles as the intermediate
revision's starting state with the fresh-reference counter at 0. -/
def interLoopCard : Card :=
  { animationType := AnimType.loop, isLooping := true,
    loopStartFrame := 24, loopEndFrame := 71, totalFrames := 100,
    isHovering := false, isOutroLocked := false, playingClass := false,
    boundOnEnterFrame := 0, nextRef := 0,
    engine := { currentFrame := 0, isPaused := true, listeners := [] },
    ui := TimelineUI.init }

/-- A loop card (bounds 20-80, 100 frames) mid-loop while hovered, with the
canonical callback subscribed once. -/
def hoveringLoopCard : Card :=
  { animationType := AnimType.loop, isLooping := true, loopStartFrame := 20,
    loopEndFrame := 80, totalFrames := 100, isHovering := true,
    isOutroLocked := false, playingClass := true, boundOnEnterFrame := 0,
    nextRef := 1,
    engine := { currentFrame := 50, isPaused := false, listeners := [0] },
    ui := TimelineUI.init }

/-- The same loop card unhovered and committed to its outro at frame 85. -/
def outroLockedLoopCard : Card :=
  { hoveringLoopCard with
    isHovering := false
    isOutroLocked := true
    engine := { currentFrame := 85, isPaused := false, listeners := [0] } }

/-- A `playAndHold` card (40 frames) holding paused at its final frame
after `onComplete` (listener already detached). -/
def heldPahCard : Card :=
  { animationType := AnimType.playAndHold, isLooping := false,
    loopStartFrame := 0, loopEndFrame := 0, totalFrames := 40,
    isHovering := false, isOutroLocked := false, playingClass := false,
    boundOnEnterFrame := 0, nextRef := 1,
    engine := { currentFrame := 40, isPaused := true, listeners := [] },
    ui := TimelineUI.init }

/-- A `playAndHold` card mid-playback (frame 20 of 40) while hovered: its
hold point has not been reached yet. -/
def playingPahCard : Card :=
  { heldPahCard with
    isHovering := true
    playingClass := true
    engine := { currentFrame := 20, isPaused := false, listeners := [0] } }

/-- A loop card whose load has not completed yet (`totalFrames = 0`). -/
def unloadedLoopCard : Card :=
  Fixed.mkCard { animationType := some AnimType.loop, loopFrames := some (24, 71) }

/-- A loop configuration with malformed bounds: `loopStart = 5 ≥ 3 = loopEnd`. -/
def malformedData : Fixed.AnimationData :=
  { animationType := some AnimType.loop, loopFrames := some (5, 3) }

/-- The session the fixed revision constructs from `malformedData`, after
the engine reports 10 total frames. -/
def malformedCard : Card := (Fixed.onDOMLoaded 10 (Fixed.mkCard malformedData)).1

/-- A Hexagons-revision freeze card (freeze frame 29, 60 frames) playing at
frame 15 while hovered — its freeze point not yet reached. -/
def hexFreezeCard : Hexagons.HexCard :=
  { animationType := Hexagons.HexAnimType.freeze, loopStartFrame := 0,
    loopEndFrame := 0, freezeFrame := 29, totalFrames := 60,
    isHovering := true, isFrozen := false, isOutroLocked := false,
    playingClass := true, frozenClass := false, boundOnEnterFrame := 0,
    engine := { currentFrame := 15, isPaused := false, listeners := [0] },
    ui := TimelineUI.init }

/-! ## Helper lemmas -/

/-- Registering a reference that occurs at most once leaves it registered
exactly once. -/
lemma count_addListener_of_le_one (r : Nat) (e : Engine)
    (h : e.listeners.count r ≤ 1) : ((addListener r e).listeners).count r = 1 := by
  unfold addListener
  split
  · next hmem =>
      have h0 : e.listeners.count r ≠ 0 := by
        simpa [List.count_eq_zero] using hmem
      omega
  · next hmem =>
      have h0 : e.listeners.count r = 0 := by
        simpa [List.count_eq_zero] using hmem
      simp [List.count_append, h0]

/-- `onHoverStart` (fixed revision) touches the listener list only through
the single `addListener` of the canonical reference, and never changes the
canonical reference itself. -/
lemma onHoverStart_listeners (c : Card) :
    (Fixed.onHoverStart c).1.engine.listeners =
      (addListener c.boundOnEnterFrame c.engine).listeners ∧
    (Fixed.onHoverStart c).1.boundOnEnterFrame = c.boundOnEnterFrame := by
  unfold Fixed.onHoverStart
  by_cases h1 : c.engine.isPaused = true
  · simp [h1, Engine.applyCmd]
  · simp only [h1, if_false, Bool.false_eq_true]
    split_ifs <;> simp [Engine.applyCmd]

/-- `onHoverStart` (fixed revision) leaves exactly one registration of the
canonical callback whenever at most one was registered before. -/
lemma countListener_onHoverStart (c : Card) (h : countListener c ≤ 1) :
    countListener (Fixed.onHoverStart c).1 = 1 := by
  have hl := onHoverStart_listeners c
  unfold countListener at *
  rw [hl.2, hl.1]
  exact count_addListener_of_le_one _ _ h

/-- With no frames loaded the enterFrame handler fixes the card, so firing
any number of registrations does nothing. -/
lemma fireListeners_of_zero_totalFrames (n : Nat) (c : Card)
    (h : c.totalFrames = 0) : Fixed.fireListeners n c = (c, []) := by
  induction n with
  | zero => rfl
  | succ n ih => simp [Fixed.fireListeners, Fixed.onEnterFrame, h, ih]

/-- Every clamped percentage is nonnegative. -/
lemma clampPercent_nonneg (x : Rat) : 0 ≤ clampPercent x :=
  le_min (by norm_num) (le_max_left 0 x)

/-- Every clamped percentage is at most 100. -/
lemma clampPercent_le_100 (x : Rat) : clampPercent x ≤ 100 :=
  min_le_left _ _

/-! ## Claims -/

/-- Claim C1 (code_bug evidence): in the intermediate revision every attach
and detach derives a fresh `this.onEnterFrame.bind(this)` reference, so
after a `HoverStart` (attach of reference 0) followed by a
`PlaybackComplete` while hovering (detach of fresh reference 1, re-attach
of fresh reference 2) the engine handle holds TWO live subscriptions and
the detach removed nothing; the fixed revision under the identical event
sequence holds exactly the one canonical reference. -/
theorem intermediate_bind_breaks_reference_identity :
    ((Inter.onComplete (Inter.onHoverStart interLoopCard).1).1).engine.listeners = [0, 2] ∧
    ((Fixed.onComplete (Fixed.onHoverStart interLoopCard).1).1).engine.listeners = [0] := by
  decide

/-- Claim C6 (counterexample): the malformed loop configuration
`loopFrames = [5, 3]` (start ≥ end) is accepted by `parseAnimationProps`
without any failure, the session is constructed, and a later frame event
reaches the loop logic (it issues `goToAndPlay 5`) — configuration-load
rejection never happens. -/
theorem malformed_bounds_accepted_counterexample :
    Fixed.parseAnimationProps malformedData =
      { animationType := AnimType.loop, isLooping := true,
        loopStartFrame := 5, loopEndFrame := 3 } ∧
    malformedCard.totalFrames = 10 ∧
    (Fixed.frameAdvanced 4 (Fixed.onHoverStart malformedCard).1).2 =
      [Cmd.goToAndPlay 5] := by
  decide

/-- Claim C6 (amended): `parseAnimationProps` performs no validation of
loop bounds — any supplied `loopFrames` pair, malformed or not, is stored
as-is, and missing bounds silently default to `(0, 0)`. -/
theorem parseAnimationProps_no_validation :
    (∀ s e : Int, Fixed.parseAnimationProps
        { animationType := some AnimType.loop, loopFrames := some (s, e) } =
      { animationType := AnimType.loop, isLooping := true,
        loopStartFrame := s, loopEndFrame := e }) ∧
    Fixed.parseAnimationProps
        { animationType := some AnimType.loop, loopFrames := none } =
      { animationType := AnimType.loop, isLooping := true,
        loopStartFrame := 0, loopEndFrame := 0 } :=
  ⟨fun _ _ => rfl, rfl⟩

/-- Claim C10: in the fixed revision a `HoverStart` while the engine is
paused unconditionally (for every playback kind) clears `isOutroLocked`
and restarts playback from frame 0 (`goToAndPlay 0` then `play`). -/
theorem hoverStart_paused_restarts_from_zero (c : Card)
    (hP : c.engine.isPaused = true) :
    (Fixed.onHoverStart c).1.isOutroLocked = false ∧
    (Fixed.onHoverStart c).1.engine.currentFrame = 0 ∧
    (Fixed.onHoverStart c).1.engine.isPaused = false ∧
    (Fixed.onHoverStart c).1.isHovering = true ∧
    (Fixed.onHoverStart c).2 = [Cmd.goToAndPlay 0, Cmd.play] := by
  simp [Fixed.onHoverStart, hP, Engine.applyCmd]

/-- Claim C10 witness: a `playAndHold` card holding paused at its final
frame 40 loses the hold on `HoverStart` — playback restarts from frame 0. -/
theorem hoverStart_paused_restarts_from_zero_witness :
    (Fixed.onHoverStart heldPahCard).1.isOutroLocked = false ∧
    (Fixed.onHoverStart heldPahCard).1.engine.currentFrame = 0 ∧
    (Fixed.onHoverStart heldPahCard).1.engine.isPaused = false ∧
    (Fixed.onHoverStart heldPahCard).1.isHovering = true ∧
    (Fixed.onHoverStart heldPahCard).2 = [Cmd.goToAndPlay 0, Cmd.play] :=
  hoverStart_paused_restarts_from_zero heldPahCard rfl

/-- Claim C7: with `totalFrames = 0` (load not complete or zero-length
clip) the frame-driven logic is a guarded no-op: `onEnterFrame` leaves the
card untouched and issues nothing, a delivered `FrameAdvanced` event only
records the engine's new frame, and a timeline update changes nothing but
the frame-counter text. -/
theorem zero_totalFrames_noop (c : Card) (h : c.totalFrames = 0) :
    Fixed.onEnterFrame c = (c, []) ∧
    (∀ f : Int, Fixed.frameAdvanced f c = (Fixed.setFrame f c, [])) ∧
    (∀ (f : Int) (playing : Bool),
      updateTimelineUI c.timelineInput c.ui f playing =
        { c.ui with frameCounter := f }) := by
  refine ⟨by simp [Fixed.onEnterFrame, h], fun f => ?_, fun f playing => ?_⟩
  · rw [Fixed.frameAdvanced]
    exact fireListeners_of_zero_totalFrames _ _ (by simp [Fixed.setFrame, h])
  · simp [updateTimelineUI, Card.timelineInput, h]

/-- Claim C7 witness: the unloaded loop card at frame 7. -/
theorem zero_totalFrames_noop_witness :
    Fixed.onEnterFrame unloadedLoopCard = (unloadedLoopCard, []) ∧
    Fixed.frameAdvanced 7 unloadedLoopCard = (Fixed.setFrame 7 unloadedLoopCard, []) ∧
    updateTimelineUI unloadedLoopCard.timelineInput unloadedLoopCard.ui 7 true =
      { unloadedLoopCard.ui with frameCounter := 7 } :=
  ⟨(zero_totalFrames_noop unloadedLoopCard rfl).1,
   (zero_totalFrames_noop unloadedLoopCard rfl).2.1 7,
   (zero_totalFrames_noop unloadedLoopCard rfl).2.2 7 true⟩

/-- Claim C5 (counterexample): in the fixed revision a `playAndHold` card
that receives `HoverEnd` mid-playback (frame 20 of 40, hold point not
reached) IS cut short: the controller issues `goToAndStop 0`, leaving the
engine paused at frame 0 instead of letting the clip finish. -/
theorem playAndHold_hoverEnd_cuts_playback_short :
    (Fixed.onHoverEnd playingPahCard).2 = [Cmd.goToAndStop 0] ∧
    (Fixed.onHoverEnd playingPahCard).1.engine.currentFrame = 0 ∧
    (Fixed.onHoverEnd playingPahCard).1.engine.isPaused = true := by
  decide

/-- Claim C5 (amended): in the Hexagons revision a Freeze card that
receives `HoverEnd` before its freeze point issues no stop, seek, or
reset — only the hovering flag and the `playing` CSS class change, and any
later frame event on the unhovered card issues no command either, so the
clip plays on to natural completion. -/
theorem hexagons_freeze_hoverEnd_no_commands (c : Hexagons.HexCard)
    (hT : c.animationType = Hexagons.HexAnimType.freeze)
    (hF : c.isFrozen = false) :
    (Hexagons.onHoverEnd c).2 = [] ∧
    (Hexagons.onHoverEnd c).1.engine = c.engine ∧
    (Hexagons.onHoverEnd c).1.isFrozen = false ∧
    (Hexagons.onHoverEnd c).1.isHovering = false ∧
    (Hexagons.onHoverEnd c).1.ui = c.ui ∧
    (∀ d : Hexagons.HexCard, d.animationType = Hexagons.HexAnimType.freeze →
      d.isHovering = false →
      (Hexagons.onEnterFrame d).2 = [] ∧
      (Hexagons.onEnterFrame d).1.isFrozen = d.isFrozen ∧
      (Hexagons.onEnterFrame d).1.engine.isPaused = d.engine.isPaused) := by
  refine ⟨?_, ?_, ?_, ?_, ?_, fun d h1 h2 => ?_⟩
  case _ => simp [Hexagons.onHoverEnd, hT, hF]
  case _ => simp [Hexagons.onHoverEnd, hT, hF]
  case _ => simp [Hexagons.onHoverEnd, hT, hF]
  case _ => simp [Hexagons.onHoverEnd, hT, hF]
  case _ => simp [Hexagons.onHoverEnd, hT, hF]
  refine ⟨?_, ?_, ?_⟩ <;> simp [Hexagons.onEnterFrame, h1, h2] <;>
    split_ifs <;> simp

/-- Claim C5 witness (amended claim): the hovered, unfrozen Hexagons freeze
card at frame 15. -/
theorem hexagons_freeze_hoverEnd_no_commands_witness :
    (Hexagons.onHoverEnd hexFreezeCard).2 = [] ∧
    (Hexagons.onHoverEnd hexFreezeCard).1.engine = hexFreezeCard.engine ∧
    (Hexagons.onHoverEnd hexFreezeCard).1.isFrozen = false ∧
    (Hexagons.onHoverEnd hexFreezeCard).1.isHovering = false ∧
    (Hexagons.onHoverEnd hexFreezeCard).1.ui = hexFreezeCard.ui ∧
    (Hexagons.onEnterFrame (Hexagons.onHoverEnd hexFreezeCard).1).2 = [] :=
  have h := hexagons_freeze_hoverEnd_no_commands hexFreezeCard rfl rfl
  ⟨h.1, h.2.1, h.2.2.1, h.2.2.2.1, h.2.2.2.2.1,
   (h.2.2.2.2.2 (Hexagons.onHoverEnd hexFreezeCard).1 rfl h.2.2.2.1).1⟩

/-- Claim C2: delivering `HoverStart` twice in a row (fixed revision, with
at most one registration beforehand) leaves exactly one registration of
the canonical frame callback on the engine handle, and a delivered frame
event therefore runs the `onEnterFrame` logic exactly once. -/
theorem hoverStart_twice_single_subscription (c : Card)
    (h : countListener c ≤ 1) :
    countListener (Fixed.onHoverStart (Fixed.onHoverStart c).1).1 = 1 ∧
    ∀ f : Int,
      Fixed.frameAdvanced f (Fixed.onHoverStart (Fixed.onHoverStart c).1).1 =
        Fixed.onEnterFrame
          (Fixed.setFrame f (Fixed.onHoverStart (Fixed.onHoverStart c).1).1) := by
  have h1 : countListener (Fixed.onHoverStart c).1 = 1 :=
    countListener_onHoverStart c h
  have h2 : countListener (Fixed.onHoverStart (Fixed.onHoverStart c).1).1 = 1 :=
    countListener_onHoverStart _ (by omega)
  refine ⟨h2, fun f => ?_⟩
  rw [Fixed.frameAdvanced, h2]
  simp [Fixed.fireListeners]

/-- Claim C2 witness: the idle loop card hovered twice in a row. -/
theorem hoverStart_twice_single_subscription_witness :
    countListener (Fixed.onHoverStart (Fixed.onHoverStart interLoopCard).1).1 = 1 ∧
    Fixed.frameAdvanced 30 (Fixed.onHoverStart (Fixed.onHoverStart interLoopCard).1).1 =
      Fixed.onEnterFrame
        (Fixed.setFrame 30 (Fixed.onHoverStart (Fixed.onHoverStart interLoopCard).1).1) :=
  ⟨(hoverStart_twice_single_subscription interLoopCard (by decide)).1,
   (hoverStart_twice_single_subscription interLoopCard (by decide)).2 30⟩

/-- Claim C4: a loop card that is hovering, not outro-locked and loaded,
on a frame event reporting `f ≥ loopEndFrame`, issues exactly one
`goToAndPlay loopStartFrame`, after which the engine's reported frame is
`loopStartFrame` and playback continues unpaused. -/
theorem loop_frame_past_end_seeks_loop_start (c : Card) (f : Int)
    (hL : c.isLooping = true) (hH : c.isHovering = true)
    (hO : c.isOutroLocked = false) (hT : c.totalFrames ≠ 0)
    (hC : countListener c = 1) (hF : c.loopEndFrame ≤ f) :
    (Fixed.frameAdvanced f c).2 = [Cmd.goToAndPlay c.loopStartFrame] ∧
    (Fixed.frameAdvanced f c).1.engine.currentFrame = c.loopStartFrame ∧
    (Fixed.frameAdvanced f c).1.engine.isPaused = false := by
  rw [Fixed.frameAdvanced, hC]
  simp [Fixed.fireListeners, Fixed.onEnterFrame, Fixed.setFrame,
        hL, hH, hO, hT, hF, Engine.applyCmd]

/-- Claim C4 witness: the hovering loop card (bounds 20-80) at frame 80. -/
theorem loop_frame_past_end_seeks_loop_start_witness :
    (Fixed.frameAdvanced 80 hoveringLoopCard).2 = [Cmd.goToAndPlay 20] ∧
    (Fixed.frameAdvanced 80 hoveringLoopCard).1.engine.currentFrame = 20 ∧
    (Fixed.frameAdvanced 80 hoveringLoopCard).1.engine.isPaused = false :=
  loop_frame_past_end_seeks_loop_start hoveringLoopCard 80
    rfl rfl rfl (by decide) rfl (by decide)

/-- Claim C3: the outro-lock lifecycle of a loop card (fixed revision):
(a) while unhovered, a frame event at or past `loopStartFrame` sets the
lock; (b) while locked, further frame events keep the lock and mutate no
playback state (no commands; hovering, paused flag and listeners
unchanged; only the reported frame is recorded); (c) `PlaybackComplete`
clears the lock; (d) a `HoverStart` at a frame not past `loopEndFrame`
clears the lock; (e) a `HoverStart` past `loopEndFrame` while playing
keeps the lock; (f) `HoverEnd` leaves the lock alone. -/
theorem loop_outro_lock_lifecycle (c : Card) (f : Int)
    (hT : c.animationType = AnimType.loop) (hL : c.isLooping = true) :
    (c.isHovering = false → c.isOutroLocked = false → c.totalFrames ≠ 0 →
      countListener c = 1 → c.loopStartFrame ≤ f →
      (Fixed.frameAdvanced f c).1.isOutroLocked = true) ∧
    (c.isOutroLocked = true → countListener c = 1 →
      (Fixed.frameAdvanced f c).1.isOutroLocked = true ∧
      (Fixed.frameAdvanced f c).2 = [] ∧
      (Fixed.frameAdvanced f c).1.isHovering = c.isHovering ∧
      (Fixed.frameAdvanced f c).1.engine.isPaused = c.engine.isPaused ∧
      (Fixed.frameAdvanced f c).1.engine.listeners = c.engine.listeners ∧
      (Fixed.frameAdvanced f c).1.engine.currentFrame = f) ∧
    ((Fixed.onComplete c).1.isOutroLocked = false) ∧
    (c.engine.currentFrame ≤ c.loopEndFrame →
      (Fixed.onHoverStart c).1.isOutroLocked = false) ∧
    (c.isOutroLocked = true → c.engine.isPaused = false →
      c.loopEndFrame < c.engine.currentFrame →
      (Fixed.onHoverStart c).1.isOutroLocked = true) ∧
    ((Fixed.onHoverEnd c).1.isOutroLocked = c.isOutroLocked) := by
  refine ⟨fun hh hl htf hc hf => ?_, fun hl hc => ?_, ?_, fun hfr => ?_,
          fun hl hp hfr => ?_, ?_⟩
  · rw [Fixed.frameAdvanced, hc]
    simp [Fixed.fireListeners, Fixed.onEnterFrame, Fixed.setFrame,
          hh, hl, htf, hf, hL]
  · rw [Fixed.frameAdvanced, hc]
    by_cases htf : c.totalFrames = 0 <;>
      simp [Fixed.fireListeners, Fixed.onEnterFrame, Fixed.setFrame,
            hl, htf, hL]
  · unfold Fixed.onComplete
    rw [hT]
    simp only [reduceCtorEq, if_false]
    split_ifs <;> simp
  · unfold Fixed.onHoverStart
    by_cases hp : c.engine.isPaused = true
    · simp [hp]
    · simp only [hp, Bool.false_eq_true, if_false]
      split_ifs with hcond
      · simp
      · simp only []
        by_contra hne
        exact hcond ⟨hL, by simpa using hne, hfr⟩
  · unfold Fixed.onHoverStart
    rw [hp]
    simp only [Bool.false_eq_true, if_false]
    split_ifs with hcond
    · exact absurd hcond.2.2 (by omega)
    · simpa using hl
  · unfold Fixed.onHoverEnd
    rw [hT]
    simp

/-- Claim C3 witness: the unhovered loop card locked in its outro at frame
85 (bounds 20-80): a further frame event at 90 keeps the lock and issues
nothing, completion clears it, and a hover past the loop end while playing
keeps it. -/
theorem loop_outro_lock_lifecycle_witness :
    ((Fixed.frameAdvanced 90 outroLockedLoopCard).1.isOutroLocked = true ∧
      (Fixed.frameAdvanced 90 outroLockedLoopCard).2 = [] ∧
      (Fixed.frameAdvanced 90 outroLockedLoopCard).1.isHovering = outroLockedLoopCard.isHovering ∧
      (Fixed.frameAdvanced 90 outroLockedLoopCard).1.engine.isPaused = outroLockedLoopCard.engine.isPaused ∧
      (Fixed.frameAdvanced 90 outroLockedLoopCard).1.engine.listeners = outroLockedLoopCard.engine.listeners ∧
      (Fixed.frameAdvanced 90 outroLockedLoopCard).1.engine.currentFrame = 90) ∧
    (Fixed.onComplete outroLockedLoopCard).1.isOutroLocked = false ∧
    (Fixed.onHoverStart outroLockedLoopCard).1.isOutroLocked = true :=
  have h := loop_outro_lock_lifecycle outroLockedLoopCard 90 rfl rfl
  ⟨h.2.1 rfl rfl, h.2.2.1, h.2.2.2.2.1 rfl rfl (by decide)⟩

/-- Loop timeline input with bounds 20-80 and 81 total frames
(`totalFrames = loopEnd + 1`). -/
def tightLoopInput : TimelineInput :=
  { totalFrames := 81, isLooping := true, loopStartFrame := 20, loopEndFrame := 80 }

/-- Loop timeline input with bounds 20-80 and 100 total frames. -/
def wideLoopInput : TimelineInput :=
  { totalFrames := 100, isLooping := true, loopStartFrame := 20, loopEndFrame := 80 }

/-- On a loaded looping timeline the three progress bars are exactly the
clamped percentage expressions of the source. -/
lemma updateTimelineUI_progress (inp : TimelineInput) (prev : TimelineUI)
    (f : Int) (hL : inp.isLooping = true) (hT : inp.totalFrames ≠ 0) :
    (updateTimelineUI inp prev f true).progressIntro =
      clampPercent (((f : Rat) / (inp.loopStartFrame : Rat)) * 100) ∧
    (updateTimelineUI inp prev f true).progressLoop =
      clampPercent ((((f : Rat) - (inp.loopStartFrame : Rat)) /
        ((inp.loopEndFrame : Rat) - (inp.loopStartFrame : Rat))) * 100) ∧
    (updateTimelineUI inp prev f true).progressOutro =
      clampPercent ((((f : Rat) - (inp.loopEndFrame : Rat)) /
        ((inp.totalFrames : Rat) - (inp.loopEndFrame : Rat))) * 100) := by
  unfold updateTimelineUI
  simp only [hL, hT, if_false, if_true]
  split_ifs <;> simp

/-- Claim C8: for a loop timeline with well-formed bounds
(`0 < loopStart < loopEnd < totalFrames`, so no divisor is zero) each of
the three segment progress percentages is clamped to `[0, 100]` (i.e. the
ratios to `[0, 1]`) for every frame value; in particular
`frame = loopEnd + 1` with `totalFrames = loopEnd + 1` yields an outro
percentage of exactly 100, never more. -/
theorem loop_progress_clamped (inp : TimelineInput) (prev : TimelineUI)
    (f : Int) (hL : inp.isLooping = true)
    (h1 : 0 < inp.loopStartFrame) (h2 : inp.loopStartFrame < inp.loopEndFrame)
    (h3 : inp.loopEndFrame < inp.totalFrames) :
    (0 ≤ (updateTimelineUI inp prev f true).progressIntro ∧
      (updateTimelineUI inp prev f true).progressIntro ≤ 100) ∧
    (0 ≤ (updateTimelineUI inp prev f true).progressLoop ∧
      (updateTimelineUI inp prev f true).progressLoop ≤ 100) ∧
    (0 ≤ (updateTimelineUI inp prev f true).progressOutro ∧
      (updateTimelineUI inp prev f true).progressOutro ≤ 100) ∧
    (inp.totalFrames = inp.loopEndFrame + 1 → f = inp.loopEndFrame + 1 →
      (updateTimelineUI inp prev f true).progressOutro = 100) := by
  have hT : inp.totalFrames ≠ 0 := by omega
  have hp := updateTimelineUI_progress inp prev f hL hT
  refine ⟨?_, ?_, ?_, fun htf hf => ?_⟩
  · rw [hp.1]; exact ⟨clampPercent_nonneg _, clampPercent_le_100 _⟩
  · rw [hp.2.1]; exact ⟨clampPercent_nonneg _, clampPercent_le_100 _⟩
  · rw [hp.2.2]; exact ⟨clampPercent_nonneg _, clampPercent_le_100 _⟩
  · rw [hp.2.2]
    have hnum : ((f : Rat) - (inp.loopEndFrame : Rat)) = 1 := by
      rw [hf]; push_cast; ring
    have hden : ((inp.totalFrames : Rat) - (inp.loopEndFrame : Rat)) = 1 := by
      rw [htf]; push_cast; ring
    rw [hnum, hden]
    norm_num [clampPercent]

/-- Claim C8 witness: bounds 20-80 with 81 total frames at frame 81. -/
theorem loop_progress_clamped_witness :
    (0 ≤ (updateTimelineUI tightLoopInput TimelineUI.init 81 true).progressIntro ∧
      (updateTimelineUI tightLoopInput TimelineUI.init 81 true).progressIntro ≤ 100) ∧
    (updateTimelineUI tightLoopInput TimelineUI.init 81 true).progressOutro = 100 :=
  have h := loop_progress_clamped tightLoopInput TimelineUI.init 81
    rfl (by decide) (by decide) (by decide)
  ⟨h.1, h.2.2.2 rfl rfl⟩

/-- Claim C9: on a loaded looping timeline, while playing exactly one of
the intro/loop/outro segments is active — intro for `frame < loopStart`,
loop for `loopStart ≤ frame ≤ loopEnd`, outro for `frame > loopEnd` — and
while not playing none of the three is active. -/
theorem active_segment_selection (inp : TimelineInput) (prev : TimelineUI)
    (f : Int) (hL : inp.isLooping = true) (hT : inp.totalFrames ≠ 0)
    (hSE : inp.loopStartFrame ≤ inp.loopEndFrame) :
    ((updateTimelineUI inp prev f false).introActive = false ∧
     (updateTimelineUI inp prev f false).loopActive = false ∧
     (updateTimelineUI inp prev f false).outroActive = false) ∧
    (f < inp.loopStartFrame →
      (updateTimelineUI inp prev f true).introActive = true ∧
      (updateTimelineUI inp prev f true).loopActive = false ∧
      (updateTimelineUI inp prev f true).outroActive = false) ∧
    (inp.loopStartFrame ≤ f → f ≤ inp.loopEndFrame →
      (updateTimelineUI inp prev f true).introActive = false ∧
      (updateTimelineUI inp prev f true).loopActive = true ∧
      (updateTimelineUI inp prev f true).outroActive = false) ∧
    (inp.loopEndFrame < f →
      (updateTimelineUI inp prev f true).introActive = false ∧
      (updateTimelineUI inp prev f true).loopActive = false ∧
      (updateTimelineUI inp prev f true).outroActive = true) := by
  refine ⟨?_, fun hc => ?_, fun hc1 hc2 => ?_, fun hc => ?_⟩
  · simp [updateTimelineUI, hL, hT]
  · simp [updateTimelineUI, hL, hT, hc]
  · have hn : ¬ f < inp.loopStartFrame := not_lt.mpr hc1
    simp [updateTimelineUI, hL, hT, hn, hc1, hc2]
  · have hn : ¬ f < inp.loopStartFrame := by omega
    have hn2 : ¬ (inp.loopStartFrame ≤ f ∧ f ≤ inp.loopEndFrame) := by omega
    simp [updateTimelineUI, hL, hT, hn, hn2]

/-- Claim C9 witness: bounds 20-80 with 100 total frames, frame 50 (loop
segment active while playing, none active otherwise). -/
theorem active_segment_selection_witness :
    ((updateTimelineUI wideLoopInput TimelineUI.init 50 false).introActive = false ∧
     (updateTimelineUI wideLoopInput TimelineUI.init 50 false).loopActive = false ∧
     (updateTimelineUI wideLoopInput TimelineUI.init 50 false).outroActive = false) ∧
    ((updateTimelineUI wideLoopInput TimelineUI.init 50 true).introActive = false ∧
     (updateTimelineUI wideLoopInput TimelineUI.init 50 true).loopActive = true ∧
     (updateTimelineUI wideLoopInput TimelineUI.init 50 true).outroActive = false) :=
  have h := active_segment_selection wideLoopInput TimelineUI.init 50
    rfl (by decide) (by decide)
  ⟨h.1, h.2.2.1 (by decide) (by decide)⟩
